import Mathlib

/-!
Verification development for the inference-gateway repository.

The gateway selects an upstream inference backend for each request
(`routing.py`), optionally normalizes uploaded audio (`core/audio.py`),
guards requests with authentication and body-size middleware
(`app/security.py`), and extracts transcripts from upstream responses
(`app/main.py`, `core/operations.py`).  The repository contains two
near-identical implementations: an HTTP service under `app/` and a
library under `inference_gateway/core/`.

JSON request bodies are embedded as an inductive `Json` type; Python
dictionaries are association lists.  Dynamic Python failures that the
source can actually raise on the modelled paths (attribute lookup on a
non-dict, iteration over a non-iterable, dict/list indexing errors) are
made explicit in the `PyErr` error type, alongside the exception classes
the source raises deliberately (`ConfigurationError` in the core
library, `ValueError` in the app variant).
-/

namespace Gateway

/-- JSON values, as produced by parsing a request or response body. -/
inductive Json : Type where
  | null : Json
  | bool (b : Bool) : Json
  | num (n : Int) : Json
  | str (s : String) : Json
  | arr (items : List Json) : Json
  | obj (fields : List (String × Json)) : Json

/-- Python exception classes reachable in the embedded code paths. -/
inductive PyErr : Type where
  | configurationError (msg : String)
  | valueError (msg : String)
  | attributeError
  | typeError
  | keyError
  | indexError
deriving DecidableEq, Repr

instance {ε α : Type} [DecidableEq ε] [DecidableEq α] : DecidableEq (Except ε α) :=
  fun x y =>
    match x, y with
    | .ok a, .ok b => decidable_of_iff (a = b) (by simp)
    | .ok _, .error _ => isFalse (by simp)
    | .error _, .ok _ => isFalse (by simp)
    | .error e, .error f => decidable_of_iff (e = f) (by simp)

/-- Lookup in a Python dict (JSON object): first binding of the key. -/
def dictGet (fields : List (String × Json)) (key : String) : Option Json :=
  (fields.find? (fun kv => kv.1 = key)).map (fun kv => kv.2)

/-- Whether the character list `s` starts with the character list `p`
(model of Python `str.startswith` over explicit characters). -/
def charsStartWith : List Char → List Char → Bool
  | _, [] => true
  | [], _ :: _ => false
  | a :: as, b :: bs => a = b && charsStartWith as bs

/-- Model of Python `s.startswith(p)` on strings. -/
def strStartsWith (s p : String) : Bool :=
  charsStartWith s.data p.data

/-- Model of the Python slice `s[n:]`. -/
def strDrop (s : String) (n : Nat) : String :=
  ⟨s.data.drop n⟩

/-- Whether a JSON value is an object (a Python dict). -/
def Json.isObj : Json → Bool
  | .obj _ => true
  | _ => false

/-- Python string truthiness helper: the string carried by an optional
field, with `None` read as the empty string (both are falsy). -/
def optStr (o : Option String) : String := o.getD ""

/-- Python `msg.get(key)`: returns the binding (or `None`) on a dict,
raises `AttributeError` on any non-dict value. -/
def pyMsgGet (j : Json) (key : String) : Except PyErr (Option Json) :=
  match j with
  | .obj fields => .ok (dictGet fields key)
  | _ => .error .attributeError

/-- Python `for x in j`: lists iterate their items, strings their
characters, dicts their keys; other values raise `TypeError`. -/
def pyIter (j : Json) : Except PyErr (List Json) :=
  match j with
  | .arr items => .ok items
  | .str s => .ok (s.data.map (fun c => Json.str c.toString))
  | .obj fields => .ok (fields.map (fun kv => Json.str kv.1))
  | _ => .error .typeError

/-- Inner loop test of `has_audio_content` (both `routing.py` files):
a content part counts as audio when it is a dict whose `type` value is
the string `input_audio` or `audio`. -/
def isAudioPart (part : Json) : Bool :=
  match part with
  | .obj fields =>
    match dictGet fields "type" with
    | some (.str t) => t = "input_audio" || t = "audio"
    | _ => false
  | _ => false

/-- Outer loop of `has_audio_content`: `msg.get("content")` on each
message in order, scanning a list-valued content for audio parts and
returning `True` at the first hit.  A non-dict message raises
`AttributeError` at the point it is visited. -/
def hasAudioLoop : List Json → Except PyErr Bool
  | [] => .ok false
  | msg :: rest =>
    match pyMsgGet msg "content" with
    | .error e => .error e
    | .ok (some (Json.arr parts)) =>
      if parts.any isAudioPart then .ok true else hasAudioLoop rest
    | .ok _ => hasAudioLoop rest

/-- `has_audio_content(messages)` from both `routing.py` files: iterates
`messages` (with Python iteration semantics) and runs the message loop. -/
def has_audio_content (messages : Json) : Except PyErr Bool :=
  match pyIter messages with
  | .error e => .error e
  | .ok msgs => hasAudioLoop msgs

/-- Top-level audio detection for a single message, as a pure predicate:
true exactly when the message is a dict whose `content` is a list with a
direct audio part.  This is the behaviour of the source loop body on
dict messages; it looks only at the top-level content list and treats a
string content as text-only. -/
def msgHasAudio (msg : Json) : Bool :=
  match msg with
  | .obj fields =>
    match dictGet fields "content" with
    | some (.arr parts) => parts.any isAudioPart
    | _ => false
  | _ => false

namespace Core

/-- Configuration dataclass `GatewayConfig` from
`inference_gateway/core/config.py` (the fields consumed by the embedded
operations; remaining fields are inert strings and numbers for ffmpeg
invocation and prompts). -/
structure GatewayConfig where
  text_base_url : String
  audio_base_url : Option String := none
  routing_mode : String := "single"
  audio_preprocess_enabled : Bool := false
  audio_max_upload_bytes : Int := 20000000
deriving DecidableEq, Repr

/-- `GatewayConfig.effective_base_url`: the core library config has no
default URL field and simply returns `text_base_url`. -/
def GatewayConfig.effective_base_url (c : GatewayConfig) : String :=
  c.text_base_url

/-- `select_upstream_url` from `inference_gateway/core/routing.py`. -/
def select_upstream_url (request_body : List (String × Json))
    (config : GatewayConfig) : Except PyErr String :=
  if config.routing_mode = "single" then
    let base_url := config.effective_base_url
    if base_url = "" then
      .error (.configurationError
        "No upstream URL configured for single routing mode. Please set text_base_url in your GatewayConfig.")
    else
      .ok base_url
  else if config.routing_mode = "audio_text" then
    let messages := (dictGet request_body "messages").getD (Json.arr [])
    match has_audio_content messages with
    | .error e => .error e
    | .ok true =>
      if optStr config.audio_base_url = "" then
        .error (.configurationError
          "audio_base_url is required when routing audio requests. Please set audio_base_url in your GatewayConfig.")
      else
        .ok (optStr config.audio_base_url)
    | .ok false =>
      if config.text_base_url = "" then
        .error (.configurationError
          "text_base_url is required when routing text requests. Please set text_base_url in your GatewayConfig.")
      else
        .ok config.text_base_url
  else
    .error (.configurationError ("Unknown routing mode: " ++ config.routing_mode))

/-- Upstream selection of `list_models` from
`inference_gateway/core/operations.py` (lines 122-131).  It consumes no
request body: model listing is not content-inspected. -/
def list_models_url (config : GatewayConfig) : Except PyErr String :=
  if config.routing_mode = "single" then
    let base_url := config.effective_base_url
    if base_url = "" then
      .error (.configurationError
        "No upstream URL configured. Please set text_base_url in your GatewayConfig.")
    else
      .ok base_url
  else if config.routing_mode = "audio_text" then
    if config.text_base_url = "" then
      .error (.configurationError "text_base_url is required for list_models operation.")
    else
      .ok config.text_base_url
  else
    .error (.configurationError ("Unknown routing mode: " ++ config.routing_mode))

/-- Outcome of `normalize_audio_to_wav` from
`inference_gateway/core/audio.py`, stopping at the point where the
function leaves pure control flow: it either raises
`AudioProcessingError audio_too_large`, returns the input bytes
unchanged, or goes on to the temporary-directory and ffmpeg block with
the input bytes. -/
inductive NormalizeResult : Type where
  | raises (error_type : String)
  | returns (bytes : List Nat)
  | transcodes (bytes : List Nat)
deriving DecidableEq, Repr

/-- Pure prefix of `normalize_audio_to_wav` (`core/audio.py` lines
57-73): the size check runs first, before the preprocessing toggle is
consulted and before any filesystem write or ffmpeg invocation. -/
def normalize_audio_to_wav (input_bytes : List Nat)
    (config : GatewayConfig) : NormalizeResult :=
  if (input_bytes.length : Int) > config.audio_max_upload_bytes then
    .raises "audio_too_large"
  else if !config.audio_preprocess_enabled then
    .returns input_bytes
  else
    .transcodes input_bytes

end Core

namespace App

/-- The fields of the pydantic `Settings` class (`app/config.py`)
consumed by the embedded routing, models and security code.  URL fields
are `str | None`; `routing_mode` is kept as a plain string so that
behaviour on unvalidated values is also covered. -/
structure Settings where
  text_base_url : Option String := none
  audio_base_url : Option String := none
  default_base_url : Option String := none
  routing_mode : String := "single"
  api_key : Option String := none
deriving DecidableEq, Repr

/-- `Settings.effective_base_url` (`app/config.py` lines 214-219):
`default_base_url or text_base_url or ""` in single mode, otherwise
`text_base_url or ""`. -/
def Settings.effective_base_url (s : Settings) : String :=
  if s.routing_mode = "single" then
    if optStr s.default_base_url ≠ "" then optStr s.default_base_url
    else optStr s.text_base_url
  else
    optStr s.text_base_url

/-- `select_upstream_url` from `app/routing.py`: identical control flow
to the core variant, but raising `ValueError` and consulting
`Settings`. -/
def select_upstream_url (request_body : List (String × Json))
    (settings : Settings) : Except PyErr String :=
  if settings.routing_mode = "single" then
    let base_url := settings.effective_base_url
    if base_url = "" then
      .error (.valueError
        "No upstream URL configured for single routing mode. Please set DEFAULT_BASE_URL or TEXT_BASE_URL in your .env file.")
    else
      .ok base_url
  else if settings.routing_mode = "audio_text" then
    let messages := (dictGet request_body "messages").getD (Json.arr [])
    match has_audio_content messages with
    | .error e => .error e
    | .ok true =>
      if optStr settings.audio_base_url = "" then
        .error (.valueError
          "AUDIO_BASE_URL is required when routing audio requests. Please set AUDIO_BASE_URL in your .env file.")
      else
        .ok (optStr settings.audio_base_url)
    | .ok false =>
      if optStr settings.text_base_url = "" then
        .error (.valueError
          "TEXT_BASE_URL is required when routing text requests. Please set TEXT_BASE_URL in your .env file.")
      else
        .ok (optStr settings.text_base_url)
  else
    .error (.valueError ("Unknown routing mode: " ++ settings.routing_mode))

/-- HTTP-level error produced by a handler or middleware: a status code
and the `error.type` string of the JSON error body. -/
structure HttpError where
  status : Nat
  error_type : String
deriving DecidableEq, Repr

/-- Handler translation of routing failures in `app/main.py`
(`except ValueError` around `select_upstream_url`): a `ValueError`
becomes HTTP 500 with error type `configuration_error`; no other
exception class is caught there. -/
def routingErrorToHttp : PyErr → Option HttpError
  | .valueError _ => some ⟨500, "configuration_error"⟩
  | _ => none

/-- Upstream selection of the `models` handler (`app/main.py` lines
177-206).  It takes no request body: model listing is not
content-inspected. -/
def models_url (settings : Settings) : Except HttpError String :=
  if settings.routing_mode = "single" then
    let base_url := settings.effective_base_url
    if base_url = "" then
      .error ⟨500, "configuration_error"⟩
    else
      .ok base_url
  else if settings.routing_mode = "audio_text" then
    if optStr settings.text_base_url = "" then
      .error ⟨500, "configuration_error"⟩
    else
      .ok (optStr settings.text_base_url)
  else
    .error ⟨500, "configuration_error"⟩

/-- Outcome of a middleware dispatch: pass the request to the next
layer, or answer immediately with an error response. -/
inductive MwOutcome : Type where
  | next
  | reject (status : Nat) (error_type : String)
deriving DecidableEq, Repr

/-- The parts of an HTTP request examined by the security middleware. -/
structure HttpRequest where
  method : String := "GET"
  path : String
  authorization : Option String := none
  content_length : Option String := none
deriving DecidableEq, Repr

/-- `APIKeyMiddleware.dispatch` from `app/security.py` (lines 51-73):
no configured key passes everything; `/health` is always public; the
`authorization` header (absent read as the empty string) must start
with the literal `Bearer `; the remainder must equal the key exactly. -/
def apiKeyDispatch (api_key : Option String) (request : HttpRequest) : MwOutcome :=
  match api_key with
  | none => .next
  | some key =>
    if request.path = "/health" then .next
    else
      let auth_header := optStr request.authorization
      if !strStartsWith auth_header "Bearer " then
        .reject 401 "auth_required"
      else if strDrop auth_header 7 ≠ key then
        .reject 401 "auth_failed"
      else
        .next

/-- Whether a character list is a valid unsigned Python integer literal
body after the sign: nonempty digits with single underscores allowed
only between digits. -/
def pyDigitsRest : List Char → Bool
  | [] => true
  | '_' :: [] => false
  | '_' :: c :: cs => c.isDigit && pyDigitsRest cs
  | c :: cs => c.isDigit && pyDigitsRest cs

/-- Valid digit run: nonempty, starts with a digit, underscore rules. -/
def pyDigitsOk : List Char → Bool
  | [] => false
  | c :: cs => c.isDigit && pyDigitsRest cs

/-- Numeric value of a digit run, ignoring underscores. -/
def pyDigitsVal (cs : List Char) : Nat :=
  (cs.filter (fun c => c ≠ '_')).foldl
    (fun acc c => acc * 10 + (c.toNat - 48)) 0

/-- ASCII whitespace stripped by Python `int(str)`. -/
def pyIsSpace (c : Char) : Bool :=
  c = ' ' || c = '\t' || c = '\n' || c = '\r' || c = '\x0b' || c = '\x0c'

/-- Strip leading and trailing whitespace from a character list. -/
def pyStripChars (cs : List Char) : List Char :=
  ((cs.dropWhile pyIsSpace).reverse.dropWhile pyIsSpace).reverse

/-- Python `int(s)` on a header string: surrounding whitespace is
stripped, an optional sign precedes a digit run; `none` models the
`ValueError` raised on anything else. -/
def pyParseInt (s : String) : Option Int :=
  match pyStripChars s.data with
  | '+' :: rest => if pyDigitsOk rest then some (pyDigitsVal rest) else none
  | '-' :: rest => if pyDigitsOk rest then some (-(pyDigitsVal rest : Int)) else none
  | cs => if pyDigitsOk cs then some (pyDigitsVal cs) else none

/-- `MaxBodySizeMiddleware.dispatch` from `app/security.py` (lines
87-105): only POST requests to the two guarded audio paths are checked;
a present content-length that parses as an integer above the limit is
rejected with 413 before the body is read; a missing or unparsable
header falls through to the next layer. -/
def maxBodySizeDispatch (max_bytes : Int) (request : HttpRequest) : MwOutcome :=
  if request.method = "POST" ∧
      (request.path = "/v1/transcribe" ∨ request.path = "/v1/analyze") then
    match request.content_length with
    | none => .next
    | some cl =>
      match pyParseInt cl with
      | some n => if n > max_bytes then .reject 413 "request_too_large" else .next
      | none => .next
  else
    .next

/-- Python subscript `j[k]` for a string or integer key, with the
exception classes the interpreter raises: `KeyError` for a missing dict
key or a non-string dict key, `IndexError` for an out-of-range list or
string index, `TypeError` for every other combination.  Strings support
integer indexing, yielding a one-character string. -/
def pyIndex (j : Json) (k : Sum String Nat) : Except PyErr Json :=
  match j, k with
  | .obj fields, .inl key =>
    match dictGet fields key with
    | some v => .ok v
    | none => .error .keyError
  | .obj _, .inr _ => .error .keyError
  | .arr items, .inr i =>
    match items.get? i with
    | some v => .ok v
    | none => .error .indexError
  | .arr _, .inl _ => .error .typeError
  | .str s, .inr i =>
    match s.data.get? i with
    | some c => .ok (.str c.toString)
    | none => .error .indexError
  | .str _, .inl _ => .error .typeError
  | _, _ => .error .typeError

/-- The expression `resp_json["choices"][0]["message"]["content"]`
evaluated with Python subscript semantics, as in the transcribe handler
(`app/main.py` lines 317-318) and `transcribe_audio`
(`core/operations.py` line 47). -/
def extract_transcript (resp_json : Json) : Except PyErr Json :=
  match pyIndex resp_json (.inl "choices") with
  | .error e => .error e
  | .ok choices =>
    match pyIndex choices (.inr 0) with
    | .error e => .error e
    | .ok first =>
      match pyIndex first (.inl "message") with
      | .error e => .error e
      | .ok message =>
        pyIndex message (.inl "content")

/-- Response-parsing step of the transcribe handler (`app/main.py`
lines 315-330): `upstream_response.json()` failing (modelled as a
`none` body) or any of `JSONDecodeError`, `ValueError`, `KeyError`,
`IndexError`, `TypeError` during extraction yields HTTP 502 with error
type `upstream_invalid_response`; otherwise the extracted value is the
transcript. -/
def transcribeParseStep (body : Option Json) : Except HttpError Json :=
  match body with
  | none => .error ⟨502, "upstream_invalid_response"⟩
  | some j =>
    match extract_transcript j with
    | .ok v => .ok v
    | .error _ => .error ⟨502, "upstream_invalid_response"⟩

/-- Object field of a JSON value, `none` on any non-object. -/
def jsonObjGet (j : Json) (key : String) : Option Json :=
  match j with
  | .obj fields => dictGet fields key
  | _ => none

/-- First element of a JSON array, `none` on any non-array. -/
def jsonArrHead (j : Json) : Option Json :=
  match j with
  | .arr items => items.head?
  | _ => none

/-- Specification-side reading of transcript extraction: the value at
the structural path `choices[0].message.content`, with `none` whenever
a key is missing, the index is out of range, or a value has the wrong
type. -/
def specExtract (body : Option Json) : Option Json :=
  (((body.bind (fun j => jsonObjGet j "choices")).bind jsonArrHead).bind
    (fun m => jsonObjGet m "message")).bind
    (fun w => jsonObjGet w "content")

end App

end Gateway

namespace Gateway

/-- Whether a `PyErr` is the core library `ConfigurationError` class. -/
def isConfigurationErrorB : PyErr → Bool
  | .configurationError _ => true
  | _ => false

/-- A routing result that either succeeded or failed with
`ConfigurationError` (and with no other exception class). -/
def failsOnlyWithConfigurationErrorB : Except PyErr String → Bool
  | .ok _ => true
  | .error e => isConfigurationErrorB e

/-- Request bodies whose `messages` field, when present, is a list all
of whose elements are JSON objects (Python dicts). -/
def messagesWellFormed (request_body : List (String × Json)) : Bool :=
  match dictGet request_body "messages" with
  | none => true
  | some (Json.arr msgs) => msgs.all Json.isObj
  | some _ => false

/-- Successful value of an `Except`, forgetting the error. -/
def exceptToOption {ε α : Type} : Except ε α → Option α
  | .ok a => some a
  | .error _ => none

/-- Whether an `Except` is a success. -/
def exceptIsOk {ε α : Type} : Except ε α → Bool
  | .ok _ => true
  | .error _ => false

/-- On a list of dict messages the source loop terminates without an
exception and computes exactly the top-level audio predicate. -/
theorem hasAudioLoop_eq_any (msgs : List Json) (hobj : msgs.all Json.isObj = true) :
    hasAudioLoop msgs = .ok (msgs.any msgHasAudio) := by
  induction msgs with
  | nil => rfl
  | cons msg rest ih =>
    rw [List.all_cons, Bool.and_eq_true] at hobj
    obtain ⟨hmsg, hrest⟩ := hobj
    cases msg with
    | obj fields =>
      cases hcontent : dictGet fields "content" with
      | none =>
        simp [hasAudioLoop, pyMsgGet, hcontent, msgHasAudio, ih hrest]
      | some v =>
        cases v with
        | arr parts =>
          by_cases hp : parts.any isAudioPart = true
          · simp [hasAudioLoop, pyMsgGet, hcontent, msgHasAudio, hp]
          · simp only [Bool.not_eq_true] at hp
            simp [hasAudioLoop, pyMsgGet, hcontent, msgHasAudio, hp, ih hrest]
        | null => simp [hasAudioLoop, pyMsgGet, hcontent, msgHasAudio, ih hrest]
        | bool b => simp [hasAudioLoop, pyMsgGet, hcontent, msgHasAudio, ih hrest]
        | num n => simp [hasAudioLoop, pyMsgGet, hcontent, msgHasAudio, ih hrest]
        | str t => simp [hasAudioLoop, pyMsgGet, hcontent, msgHasAudio, ih hrest]
        | obj f2 => simp [hasAudioLoop, pyMsgGet, hcontent, msgHasAudio, ih hrest]
    | null => simp [Json.isObj] at hmsg
    | bool b => simp [Json.isObj] at hmsg
    | num n => simp [Json.isObj] at hmsg
    | str t => simp [Json.isObj] at hmsg
    | arr items => simp [Json.isObj] at hmsg

/-- Claim C5: any input strictly longer than `audio_max_upload_bytes`
makes `normalize_audio_to_wav` fail with the `audio_too_large` error —
the result is the raised error itself, not the transcoding step, so no
filesystem or ffmpeg activity happens, and the preprocessing toggle is
never consulted; an input of exactly the limit is not rejected by this
check. -/
theorem normalize_oversized_rejection (input_bytes : List Nat)
    (config : Core.GatewayConfig) :
    ((input_bytes.length : Int) > config.audio_max_upload_bytes →
      Core.normalize_audio_to_wav input_bytes config = .raises "audio_too_large") ∧
    ((input_bytes.length : Int) = config.audio_max_upload_bytes →
      Core.normalize_audio_to_wav input_bytes config ≠ .raises "audio_too_large") := by
  constructor
  · intro h
    simp [Core.normalize_audio_to_wav, h]
  · intro h
    rw [Core.normalize_audio_to_wav, if_neg (by omega)]
    cases hflag : config.audio_preprocess_enabled <;> simp

/-- Witness for C5 at a concrete oversized input. -/
theorem normalize_oversized_rejection_witness :
    (([0, 0].length : Int) >
      ({ text_base_url := "http://t", audio_max_upload_bytes := 1 } :
        Core.GatewayConfig).audio_max_upload_bytes) ∧
    Core.normalize_audio_to_wav [0, 0]
      { text_base_url := "http://t", audio_max_upload_bytes := 1 } =
      .raises "audio_too_large" :=
  ⟨by decide,
    (normalize_oversized_rejection [0, 0]
      { text_base_url := "http://t", audio_max_upload_bytes := 1 }).1 (by decide)⟩

/-- Claim C4, counterexample: with preprocessing disabled and the size
limit set to zero, a one-byte input is rejected with `audio_too_large`
rather than returned unchanged, so `normalize_audio_to_wav` is not the
identity on every input when preprocessing is disabled. -/
theorem normalize_disabled_identity_counterexample :
    Core.normalize_audio_to_wav [0]
      { text_base_url := "http://t", audio_preprocess_enabled := false,
        audio_max_upload_bytes := 0 } ≠ .returns [0] ∧
    Core.normalize_audio_to_wav [0]
      { text_base_url := "http://t", audio_preprocess_enabled := false,
        audio_max_upload_bytes := 0 } = .raises "audio_too_large" := by
  decide

/-- Claim C4, amended: when preprocessing is disabled,
`normalize_audio_to_wav` returns its input unchanged for every input
whose length does not exceed `audio_max_upload_bytes` (oversized inputs
are still rejected by the size check that runs first). -/
theorem normalize_disabled_identity_within_limit (input_bytes : List Nat)
    (config : Core.GatewayConfig)
    (hdisabled : config.audio_preprocess_enabled = false)
    (hsize : (input_bytes.length : Int) ≤ config.audio_max_upload_bytes) :
    Core.normalize_audio_to_wav input_bytes config = .returns input_bytes := by
  rw [Core.normalize_audio_to_wav, if_neg (by omega)]
  simp [hdisabled]

/-- Witness for the amended C4 at a concrete in-limit input. -/
theorem normalize_disabled_identity_within_limit_witness :
    ({ text_base_url := "http://t" } : Core.GatewayConfig).audio_preprocess_enabled = false ∧
    (([0].length : Int) ≤
      ({ text_base_url := "http://t" } : Core.GatewayConfig).audio_max_upload_bytes) ∧
    Core.normalize_audio_to_wav [0] { text_base_url := "http://t" } = .returns [0] :=
  ⟨by decide, by decide,
    normalize_disabled_identity_within_limit [0] { text_base_url := "http://t" }
      (by decide) (by decide)⟩

end Gateway

namespace Gateway

/-- Claim C2: in `single` routing mode, selection ignores the request
body entirely.  The core library variant has no default URL field: its
`effective_base_url` is `text_base_url`, returned when non-empty, with
`ConfigurationError` otherwise.  The app variant returns
`default_base_url` when non-empty, else `text_base_url` when non-empty,
and otherwise raises the `ValueError` that the handlers translate to
HTTP 500 with error type `configuration_error`. -/
theorem single_mode_selection (request_body : List (String × Json))
    (c : Core.GatewayConfig) (s : App.Settings) :
    (c.routing_mode = "single" →
      (c.text_base_url ≠ "" →
        Core.select_upstream_url request_body c = .ok c.text_base_url) ∧
      (c.text_base_url = "" →
        ∃ m, Core.select_upstream_url request_body c = .error (.configurationError m))) ∧
    (s.routing_mode = "single" →
      (optStr s.default_base_url ≠ "" →
        App.select_upstream_url request_body s = .ok (optStr s.default_base_url)) ∧
      (optStr s.default_base_url = "" → optStr s.text_base_url ≠ "" →
        App.select_upstream_url request_body s = .ok (optStr s.text_base_url)) ∧
      (optStr s.default_base_url = "" → optStr s.text_base_url = "" →
        ∃ m, App.select_upstream_url request_body s = .error (.valueError m) ∧
          App.routingErrorToHttp (.valueError m) = some ⟨500, "configuration_error"⟩)) := by
  constructor
  · intro hmode
    constructor
    · intro ht
      simp [Core.select_upstream_url, hmode, Core.GatewayConfig.effective_base_url, ht]
    · intro ht
      exact ⟨"No upstream URL configured for single routing mode. Please set text_base_url in your GatewayConfig.", by
        simp [Core.select_upstream_url, hmode, Core.GatewayConfig.effective_base_url, ht]⟩
  · intro hmode
    refine ⟨?_, ?_, ?_⟩
    · intro hd
      simp [App.select_upstream_url, App.Settings.effective_base_url, hmode, hd]
    · intro hd ht
      simp [App.select_upstream_url, App.Settings.effective_base_url, hmode, hd, ht]
    · intro hd ht
      exact ⟨"No upstream URL configured for single routing mode. Please set DEFAULT_BASE_URL or TEXT_BASE_URL in your .env file.", by
        simp [App.select_upstream_url, App.Settings.effective_base_url, hmode, hd, ht],
        rfl⟩

/-- Witness for C2 at concrete single-mode configurations. -/
theorem single_mode_selection_witness :
    ({ text_base_url := "http://t" } : Core.GatewayConfig).routing_mode = "single" ∧
    ({ text_base_url := "http://t" } : Core.GatewayConfig).text_base_url ≠ "" ∧
    Core.select_upstream_url [] { text_base_url := "http://t" } = .ok "http://t" ∧
    App.select_upstream_url []
      { text_base_url := some "http://t", default_base_url := some "http://d" } =
      .ok "http://d" :=
  ⟨by decide, by decide,
    ((single_mode_selection [] { text_base_url := "http://t" }
      { text_base_url := some "http://t", default_base_url := some "http://d" }).1
      (by decide)).1 (by decide),
    ((single_mode_selection [] { text_base_url := "http://t" }
      { text_base_url := some "http://t", default_base_url := some "http://d" }).2
      (by decide)).1 (by decide)⟩

/-- Claim C7: the model-listing operation in `audio_text` mode always
targets `text_base_url`, failing with a configuration error when it is
empty; it never yields `audio_base_url` (whenever that URL differs from
the text URL), and both embedded selection functions take only the
configuration — no request content exists to be inspected. -/
theorem models_url_audio_text_mode (c : Core.GatewayConfig) (s : App.Settings) :
    (c.routing_mode = "audio_text" →
      (c.text_base_url ≠ "" → Core.list_models_url c = .ok c.text_base_url) ∧
      (c.text_base_url = "" →
        ∃ m, Core.list_models_url c = .error (.configurationError m)) ∧
      (optStr c.audio_base_url ≠ c.text_base_url →
        Core.list_models_url c ≠ .ok (optStr c.audio_base_url))) ∧
    (s.routing_mode = "audio_text" →
      (optStr s.text_base_url ≠ "" → App.models_url s = .ok (optStr s.text_base_url)) ∧
      (optStr s.text_base_url = "" →
        App.models_url s = .error ⟨500, "configuration_error"⟩) ∧
      (optStr s.audio_base_url ≠ optStr s.text_base_url →
        App.models_url s ≠ .ok (optStr s.audio_base_url))) := by
  constructor
  · intro hmode
    refine ⟨?_, ?_, ?_⟩
    · intro ht
      simp [Core.list_models_url, hmode, ht]
    · intro ht
      exact ⟨"text_base_url is required for list_models operation.", by
        simp [Core.list_models_url, hmode, ht]⟩
    · intro hne hcontra
      by_cases ht : c.text_base_url = ""
      · simp [Core.list_models_url, hmode, ht] at hcontra
      · simp [Core.list_models_url, hmode, ht] at hcontra
        exact hne hcontra.symm
  · intro hmode
    refine ⟨?_, ?_, ?_⟩
    · intro ht
      simp [App.models_url, hmode, ht]
    · intro ht
      simp [App.models_url, hmode, ht]
    · intro hne hcontra
      by_cases ht : optStr s.text_base_url = ""
      · simp [App.models_url, hmode, ht] at hcontra
      · simp [App.models_url, hmode, ht] at hcontra
        exact hne hcontra.symm

/-- Witness for C7 at concrete audio_text-mode configurations. -/
theorem models_url_audio_text_mode_witness :
    ({ text_base_url := "http://t", audio_base_url := some "http://a",
        routing_mode := "audio_text" } : Core.GatewayConfig).routing_mode = "audio_text" ∧
    Core.list_models_url
      { text_base_url := "http://t", audio_base_url := some "http://a",
        routing_mode := "audio_text" } = .ok "http://t" ∧
    App.models_url
      { text_base_url := some "http://t", audio_base_url := some "http://a",
        routing_mode := "audio_text" } = .ok "http://t" :=
  ⟨by decide,
    ((models_url_audio_text_mode
      { text_base_url := "http://t", audio_base_url := some "http://a",
        routing_mode := "audio_text" }
      { text_base_url := some "http://t", audio_base_url := some "http://a",
        routing_mode := "audio_text" }).1 (by decide)).1 (by decide),
    ((models_url_audio_text_mode
      { text_base_url := "http://t", audio_base_url := some "http://a",
        routing_mode := "audio_text" }
      { text_base_url := some "http://t", audio_base_url := some "http://a",
        routing_mode := "audio_text" }).2 (by decide)).1 (by decide)⟩

end Gateway

namespace Gateway

/-- Claim C6: the API-key middleware passes every request when no key
is configured; with a key configured, `/health` always passes; on any
other path a missing or non-`Bearer ` authorization header (the header
read defaults to the empty string, which never starts with `Bearer `)
is rejected 401 `auth_required`; a bearer token differing from the key
under exact string equality is rejected 401 `auth_failed`; a matching
token passes to the next layer. -/
theorem api_key_middleware_cases (api_key : Option String)
    (request : App.HttpRequest) :
    (api_key = none → App.apiKeyDispatch api_key request = .next) ∧
    (∀ key, api_key = some key →
      (request.path = "/health" → App.apiKeyDispatch api_key request = .next) ∧
      (request.path ≠ "/health" →
        (strStartsWith (optStr request.authorization) "Bearer " = false →
          App.apiKeyDispatch api_key request = .reject 401 "auth_required") ∧
        (strStartsWith (optStr request.authorization) "Bearer " = true →
          (strDrop (optStr request.authorization) 7 ≠ key →
            App.apiKeyDispatch api_key request = .reject 401 "auth_failed") ∧
          (strDrop (optStr request.authorization) 7 = key →
            App.apiKeyDispatch api_key request = .next)))) := by
  constructor
  · intro h
    simp [App.apiKeyDispatch, h]
  · intro key hkey
    constructor
    · intro hpath
      simp [App.apiKeyDispatch, hkey, hpath]
    · intro hpath
      constructor
      · intro hsw
        simp [App.apiKeyDispatch, hkey, hpath, hsw]
      · intro hsw
        constructor
        · intro hne
          simp [App.apiKeyDispatch, hkey, hpath, hsw, hne]
        · intro heq
          simp [App.apiKeyDispatch, hkey, hpath, hsw, heq]

/-- Witness for C6: a configured key with a mismatched bearer token. -/
theorem api_key_middleware_cases_witness :
    (some "secret" = some "secret") ∧
    ("/v1/models" ≠ "/health") ∧
    App.apiKeyDispatch (some "secret")
      { path := "/v1/models", authorization := some "Bearer wrong" } =
      .reject 401 "auth_failed" :=
  ⟨rfl, by decide,
    ((((api_key_middleware_cases (some "secret")
      { path := "/v1/models", authorization := some "Bearer wrong" }).2
      "secret" rfl).2 (by decide)).2 (by decide)).1 (by decide)⟩

/-- Claim C9: the body-size middleware acts only on POST requests to
`/v1/transcribe` and `/v1/analyze`.  On those, a Content-Length header
parsing to an integer strictly above the limit is answered 413
`request_too_large` (the dispatch result is produced from the header
alone — the body is never consulted); an absent or unparsable header,
or a parsed value within the limit, passes through; every other
method/path combination passes through. -/
theorem max_body_size_middleware_cases (max_bytes : Int)
    (request : App.HttpRequest) :
    (request.method = "POST" →
      (request.path = "/v1/transcribe" ∨ request.path = "/v1/analyze") →
      (request.content_length = none →
        App.maxBodySizeDispatch max_bytes request = .next) ∧
      (∀ cl, request.content_length = some cl →
        (App.pyParseInt cl = none →
          App.maxBodySizeDispatch max_bytes request = .next) ∧
        (∀ n, App.pyParseInt cl = some n →
          (n > max_bytes →
            App.maxBodySizeDispatch max_bytes request = .reject 413 "request_too_large") ∧
          (n ≤ max_bytes →
            App.maxBodySizeDispatch max_bytes request = .next)))) ∧
    (¬ (request.method = "POST" ∧
        (request.path = "/v1/transcribe" ∨ request.path = "/v1/analyze")) →
      App.maxBodySizeDispatch max_bytes request = .next) := by
  constructor
  · intro hm hp
    constructor
    · intro hcl
      simp [App.maxBodySizeDispatch, hm, hp, hcl]
    · intro cl hcl
      constructor
      · intro hparse
        simp [App.maxBodySizeDispatch, hm, hp, hcl, hparse]
      · intro n hparse
        constructor
        · intro hgt
          simp [App.maxBodySizeDispatch, hm, hp, hcl, hparse, hgt]
        · intro hle
          simp [App.maxBodySizeDispatch, hm, hp, hcl, hparse, not_lt.mpr hle]
  · intro hguard
    simp [App.maxBodySizeDispatch, hguard]

/-- Witness for C9: an oversized declared Content-Length on the
transcribe path. -/
theorem max_body_size_middleware_cases_witness :
    App.pyParseInt "10" = some 10 ∧
    App.maxBodySizeDispatch 5
      { method := "POST", path := "/v1/transcribe", content_length := some "10" } =
      .reject 413 "request_too_large" :=
  ⟨by decide,
    ((((max_body_size_middleware_cases 5
      { method := "POST", path := "/v1/transcribe", content_length := some "10" }).1
      (by decide) (by decide)).2 "10" (by decide)).2 10 (by decide)).1 (by decide)⟩

end Gateway

namespace Gateway

/-- Claim C1, counterexample: in `audio_text` mode, a `messages` list
containing the non-object element `1` has no message whose content
holds an audio part, yet `select_upstream_url` does not return
`text_base_url` — visiting the element raises `AttributeError`
(`msg.get` on an `int`). -/
theorem audio_text_nondict_message_counterexample :
    Core.select_upstream_url [("messages", Json.arr [Json.num 1])]
      { text_base_url := "http://text.example",
        audio_base_url := some "http://audio.example",
        routing_mode := "audio_text" } = .error .attributeError ∧
    Core.select_upstream_url [("messages", Json.arr [Json.num 1])]
      { text_base_url := "http://text.example",
        audio_base_url := some "http://audio.example",
        routing_mode := "audio_text" } ≠ .ok "http://text.example" := by
  decide

/-- Claim C1, amended: in `audio_text` mode, for a request body whose
`messages` field is a list of JSON objects, `select_upstream_url`
returns `audio_base_url` exactly when some message's content is a list
containing a dict part whose `type` is `input_audio` or `audio`
(failing with `ConfigurationError` when `audio_base_url` is unset), and
otherwise returns `text_base_url` (failing with `ConfigurationError`
when it is unset).  Detection is the top-level-only predicate
`msgHasAudio`: it never recurses into nested structures and treats a
string content as text-only. -/
theorem audio_text_routing_characterization
    (request_body : List (String × Json)) (config : Core.GatewayConfig)
    (msgs : List Json)
    (hmode : config.routing_mode = "audio_text")
    (hmsgs : dictGet request_body "messages" = some (Json.arr msgs))
    (hobj : msgs.all Json.isObj = true) :
    (msgs.any msgHasAudio = true →
      (optStr config.audio_base_url ≠ "" →
        Core.select_upstream_url request_body config = .ok (optStr config.audio_base_url)) ∧
      (optStr config.audio_base_url = "" →
        ∃ m, Core.select_upstream_url request_body config =
          .error (.configurationError m))) ∧
    (msgs.any msgHasAudio = false →
      (config.text_base_url ≠ "" →
        Core.select_upstream_url request_body config = .ok config.text_base_url) ∧
      (config.text_base_url = "" →
        ∃ m, Core.select_upstream_url request_body config =
          .error (.configurationError m))) := by
  have hloop := hasAudioLoop_eq_any msgs hobj
  constructor
  · intro hany
    constructor
    · intro ha
      simp [Core.select_upstream_url, hmode, hmsgs, has_audio_content, pyIter,
        hloop, hany, ha]
    · intro ha
      exact ⟨"audio_base_url is required when routing audio requests. Please set audio_base_url in your GatewayConfig.", by
        simp [Core.select_upstream_url, hmode, hmsgs, has_audio_content, pyIter,
          hloop, hany, ha]⟩
  · intro hany
    constructor
    · intro ht
      simp [Core.select_upstream_url, hmode, hmsgs, has_audio_content, pyIter,
        hloop, hany, ht]
    · intro ht
      exact ⟨"text_base_url is required when routing text requests. Please set text_base_url in your GatewayConfig.", by
        simp [Core.select_upstream_url, hmode, hmsgs, has_audio_content, pyIter,
          hloop, hany, ht]⟩

/-- Witness for the amended C1: a well-formed audio request routes to
the audio upstream. -/
theorem audio_text_routing_characterization_witness :
    [Json.obj [("content", Json.arr [Json.obj [("type", Json.str "input_audio")]])]].all
      Json.isObj = true ∧
    Core.select_upstream_url
      [("messages", Json.arr
        [Json.obj [("content", Json.arr [Json.obj [("type", Json.str "input_audio")]])]])]
      { text_base_url := "http://text.example",
        audio_base_url := some "http://audio.example",
        routing_mode := "audio_text" } = .ok "http://audio.example" :=
  ⟨by decide,
    ((audio_text_routing_characterization
      [("messages", Json.arr
        [Json.obj [("content", Json.arr [Json.obj [("type", Json.str "input_audio")]])]])]
      { text_base_url := "http://text.example",
        audio_base_url := some "http://audio.example",
        routing_mode := "audio_text" }
      [Json.obj [("content", Json.arr [Json.obj [("type", Json.str "input_audio")]])]]
      rfl rfl (by decide)).1 (by decide)).1 (by decide)⟩

/-- Claim C3, counterexample: with `routing_mode = audio_text`, the
JSON-object body whose `messages` value is the number `5` makes
`select_upstream_url` raise `TypeError` (iterating a non-iterable),
which is neither a returned URL nor a `ConfigurationError`. -/
theorem select_upstream_total_counterexample :
    failsOnlyWithConfigurationErrorB
      (Core.select_upstream_url [("messages", Json.num 5)]
        { text_base_url := "http://text.example",
          routing_mode := "audio_text" }) = false ∧
    Core.select_upstream_url [("messages", Json.num 5)]
      { text_base_url := "http://text.example", routing_mode := "audio_text" } =
      .error .typeError := by
  decide

/-- Claim C3, amended: `select_upstream_url` either returns a base URL
or fails with `ConfigurationError`, for every configuration (any
routing mode) and every JSON-object request body, provided that when
the routing mode is `audio_text` the body's `messages` field (if
present) is a list of JSON objects; bodies outside that shape can make
the audio-content scan raise `TypeError` or `AttributeError` instead. -/
theorem select_upstream_total_on_wellformed
    (request_body : List (String × Json)) (config : Core.GatewayConfig)
    (hwf : config.routing_mode = "audio_text" →
      messagesWellFormed request_body = true) :
    failsOnlyWithConfigurationErrorB
      (Core.select_upstream_url request_body config) = true := by
  by_cases h1 : config.routing_mode = "single"
  · by_cases ht : config.text_base_url = ""
    · simp [Core.select_upstream_url, h1, Core.GatewayConfig.effective_base_url, ht,
        failsOnlyWithConfigurationErrorB, isConfigurationErrorB]
    · simp [Core.select_upstream_url, h1, Core.GatewayConfig.effective_base_url, ht,
        failsOnlyWithConfigurationErrorB]
  · by_cases h2 : config.routing_mode = "audio_text"
    · have hwf2 := hwf h2
      rw [messagesWellFormed] at hwf2
      cases hm : dictGet request_body "messages" with
      | none =>
        by_cases ht : config.text_base_url = "" <;>
          simp [Core.select_upstream_url, h1, h2, hm, has_audio_content, pyIter,
            hasAudioLoop, ht, failsOnlyWithConfigurationErrorB, isConfigurationErrorB]
      | some v =>
        rw [hm] at hwf2
        cases v with
        | arr msgs =>
          have hloop := hasAudioLoop_eq_any msgs hwf2
          cases hany : msgs.any msgHasAudio with
          | true =>
            by_cases ha : optStr config.audio_base_url = "" <;>
              simp [Core.select_upstream_url, h1, h2, hm, has_audio_content, pyIter,
                hloop, hany, ha, failsOnlyWithConfigurationErrorB, isConfigurationErrorB]
          | false =>
            by_cases ht : config.text_base_url = "" <;>
              simp [Core.select_upstream_url, h1, h2, hm, has_audio_content, pyIter,
                hloop, hany, ht, failsOnlyWithConfigurationErrorB, isConfigurationErrorB]
        | null => simp at hwf2
        | bool b => simp at hwf2
        | num n => simp at hwf2
        | str t => simp at hwf2
        | obj f2 => simp at hwf2
    · simp [Core.select_upstream_url, h1, h2,
        failsOnlyWithConfigurationErrorB, isConfigurationErrorB]

/-- Witness for the amended C3 at a concrete well-formed body. -/
theorem select_upstream_total_on_wellformed_witness :
    messagesWellFormed
      [("messages", Json.arr [Json.obj [("content", Json.str "hi")]])] = true ∧
    failsOnlyWithConfigurationErrorB
      (Core.select_upstream_url
        [("messages", Json.arr [Json.obj [("content", Json.str "hi")]])]
        { text_base_url := "http://text.example", routing_mode := "audio_text" }) = true :=
  ⟨by decide,
    select_upstream_total_on_wellformed
      [("messages", Json.arr [Json.obj [("content", Json.str "hi")]])]
      { text_base_url := "http://text.example", routing_mode := "audio_text" }
      (fun _ => by decide)⟩

end Gateway

namespace Gateway

/-- Claim C10: the app and core upstream-selection functions are
equivalent.  For every JSON-object request body and every pair of
configurations agreeing on the routing mode, the text URL, the audio
URL and the effective default URL, the two functions return the same
base URL, and one fails exactly when the other fails (the app variant
with `ValueError`, the core variant with `ConfigurationError`, and
identical dynamic errors on the shared audio scan). -/
theorem routing_implementations_equivalent
    (request_body : List (String × Json)) (s : App.Settings)
    (c : Core.GatewayConfig)
    (hmode : s.routing_mode = c.routing_mode)
    (htext : optStr s.text_base_url = c.text_base_url)
    (haudio : optStr s.audio_base_url = optStr c.audio_base_url)
    (heff : s.effective_base_url = c.effective_base_url) :
    exceptToOption (App.select_upstream_url request_body s) =
      exceptToOption (Core.select_upstream_url request_body c) ∧
    exceptIsOk (App.select_upstream_url request_body s) =
      exceptIsOk (Core.select_upstream_url request_body c) := by
  have heq : s.effective_base_url = c.text_base_url := heff
  by_cases h1 : c.routing_mode = "single"
  · have hs1 : s.routing_mode = "single" := by rw [hmode, h1]
    by_cases hb : c.text_base_url = ""
    · simp [App.select_upstream_url, Core.select_upstream_url, hs1, h1,
        Core.GatewayConfig.effective_base_url, heq, hb, exceptToOption, exceptIsOk]
    · simp [App.select_upstream_url, Core.select_upstream_url, hs1, h1,
        Core.GatewayConfig.effective_base_url, heq, hb, exceptToOption, exceptIsOk]
  · have hs1 : ¬ s.routing_mode = "single" := by rw [hmode]; exact h1
    by_cases h2 : c.routing_mode = "audio_text"
    · have hs2 : s.routing_mode = "audio_text" := by rw [hmode, h2]
      cases hha : has_audio_content ((dictGet request_body "messages").getD (Json.arr [])) with
      | error e =>
        simp [App.select_upstream_url, Core.select_upstream_url, hs1, h1, hs2, h2,
          hha, exceptToOption, exceptIsOk]
      | ok b =>
        cases b with
        | true =>
          by_cases ha : optStr c.audio_base_url = ""
          · simp [App.select_upstream_url, Core.select_upstream_url, hs1, h1, hs2, h2,
              hha, haudio, ha, exceptToOption, exceptIsOk]
          · simp [App.select_upstream_url, Core.select_upstream_url, hs1, h1, hs2, h2,
              hha, haudio, ha, exceptToOption, exceptIsOk]
        | false =>
          by_cases ht : c.text_base_url = ""
          · simp [App.select_upstream_url, Core.select_upstream_url, hs1, h1, hs2, h2,
              hha, htext, ht, exceptToOption, exceptIsOk]
          · simp [App.select_upstream_url, Core.select_upstream_url, hs1, h1, hs2, h2,
              hha, htext, ht, exceptToOption, exceptIsOk]
    · have hs2 : ¬ s.routing_mode = "audio_text" := by rw [hmode]; exact h2
      simp [App.select_upstream_url, Core.select_upstream_url, hs1, h1, hs2, h2,
        exceptToOption, exceptIsOk]

/-- Witness for C10 at concrete agreeing configurations. -/
theorem routing_implementations_equivalent_witness :
    optStr (some "http://t") = "http://t" ∧
    exceptToOption (App.select_upstream_url
      [("messages", Json.arr [Json.obj [("content", Json.str "hi")]])]
      { text_base_url := some "http://t", audio_base_url := some "http://a",
        routing_mode := "audio_text" }) =
      exceptToOption (Core.select_upstream_url
        [("messages", Json.arr [Json.obj [("content", Json.str "hi")]])]
        { text_base_url := "http://t", audio_base_url := some "http://a",
          routing_mode := "audio_text" }) :=
  ⟨rfl,
    (routing_implementations_equivalent
      [("messages", Json.arr [Json.obj [("content", Json.str "hi")]])]
      { text_base_url := some "http://t", audio_base_url := some "http://a",
        routing_mode := "audio_text" }
      { text_base_url := "http://t", audio_base_url := some "http://a",
        routing_mode := "audio_text" }
      rfl rfl rfl rfl).1⟩

/-- The Python subscript chain computes exactly the strict structural
path `choices[0].message.content`: every deviation (missing key, empty
list, or a value of the wrong type at any step, including a string
`choices` whose first character survives one step of indexing) ends in
a raised error. -/
theorem extract_transcript_toOption (j : Json) :
    exceptToOption (App.extract_transcript j) = App.specExtract (some j) := by
  cases j with
  | null => rfl
  | bool b => rfl
  | num n => rfl
  | str t => rfl
  | arr items => rfl
  | obj fields =>
    cases hc : dictGet fields "choices" with
    | none =>
      simp [App.extract_transcript, App.pyIndex, App.specExtract, App.jsonObjGet,
        hc, exceptToOption]
    | some choices =>
      cases choices with
      | null =>
        simp [App.extract_transcript, App.pyIndex, App.specExtract, App.jsonObjGet,
          App.jsonArrHead, hc, exceptToOption]
      | bool b =>
        simp [App.extract_transcript, App.pyIndex, App.specExtract, App.jsonObjGet,
          App.jsonArrHead, hc, exceptToOption]
      | num n =>
        simp [App.extract_transcript, App.pyIndex, App.specExtract, App.jsonObjGet,
          App.jsonArrHead, hc, exceptToOption]
      | obj f1 =>
        simp [App.extract_transcript, App.pyIndex, App.specExtract, App.jsonObjGet,
          App.jsonArrHead, hc, exceptToOption]
      | str t =>
        cases ht : t.data with
        | nil =>
          simp [App.extract_transcript, App.pyIndex, App.specExtract, App.jsonObjGet,
            App.jsonArrHead, hc, ht, exceptToOption]
        | cons ch chs =>
          simp [App.extract_transcript, App.pyIndex, App.specExtract, App.jsonObjGet,
            App.jsonArrHead, hc, ht, exceptToOption]
      | arr items =>
        cases items with
        | nil =>
          simp [App.extract_transcript, App.pyIndex, App.specExtract, App.jsonObjGet,
            App.jsonArrHead, hc, exceptToOption]
        | cons first rest =>
          cases first with
          | null =>
            simp [App.extract_transcript, App.pyIndex, App.specExtract, App.jsonObjGet,
              App.jsonArrHead, hc, exceptToOption]
          | bool b =>
            simp [App.extract_transcript, App.pyIndex, App.specExtract, App.jsonObjGet,
              App.jsonArrHead, hc, exceptToOption]
          | num n =>
            simp [App.extract_transcript, App.pyIndex, App.specExtract, App.jsonObjGet,
              App.jsonArrHead, hc, exceptToOption]
          | str t2 =>
            simp [App.extract_transcript, App.pyIndex, App.specExtract, App.jsonObjGet,
              App.jsonArrHead, hc, exceptToOption]
          | arr items2 =>
            simp [App.extract_transcript, App.pyIndex, App.specExtract, App.jsonObjGet,
              App.jsonArrHead, hc, exceptToOption]
          | obj f2 =>
            cases hm : dictGet f2 "message" with
            | none =>
              simp [App.extract_transcript, App.pyIndex, App.specExtract, App.jsonObjGet,
                App.jsonArrHead, hc, hm, exceptToOption]
            | some w =>
              cases w with
              | null =>
                simp [App.extract_transcript, App.pyIndex, App.specExtract,
                  App.jsonObjGet, App.jsonArrHead, hc, hm, exceptToOption]
              | bool b =>
                simp [App.extract_transcript, App.pyIndex, App.specExtract,
                  App.jsonObjGet, App.jsonArrHead, hc, hm, exceptToOption]
              | num n =>
                simp [App.extract_transcript, App.pyIndex, App.specExtract,
                  App.jsonObjGet, App.jsonArrHead, hc, hm, exceptToOption]
              | str t3 =>
                simp [App.extract_transcript, App.pyIndex, App.specExtract,
                  App.jsonObjGet, App.jsonArrHead, hc, hm, exceptToOption]
              | arr items3 =>
                simp [App.extract_transcript, App.pyIndex, App.specExtract,
                  App.jsonObjGet, App.jsonArrHead, hc, hm, exceptToOption]
              | obj f3 =>
                cases hct : dictGet f3 "content" with
                | none =>
                  simp [App.extract_transcript, App.pyIndex, App.specExtract,
                    App.jsonObjGet, App.jsonArrHead, hc, hm, hct, exceptToOption]
                | some v =>
                  simp [App.extract_transcript, App.pyIndex, App.specExtract,
                    App.jsonObjGet, App.jsonArrHead, hc, hm, hct, exceptToOption]

/-- Claim C8: the transcribe handler's response-parsing step returns
the extracted value exactly when the strict structural path
`choices[0].message.content` exists in the upstream JSON, and fails
with HTTP 502, error type `upstream_invalid_response`, exactly when the
body is not JSON (`none`) or the path does not exist (missing key,
out-of-range index, or wrong type at any step). -/
theorem transcribe_extraction_characterization (upstream_body : Option Json) :
    (∀ v, App.transcribeParseStep upstream_body = .ok v ↔
      App.specExtract upstream_body = some v) ∧
    (App.transcribeParseStep upstream_body = .error ⟨502, "upstream_invalid_response"⟩ ↔
      App.specExtract upstream_body = none) := by
  cases upstream_body with
  | none =>
    simp [App.transcribeParseStep, App.specExtract]
  | some j =>
    have h := extract_transcript_toOption j
    cases hx : App.extract_transcript j with
    | ok v0 =>
      rw [hx] at h
      simp only [exceptToOption] at h
      constructor
      · intro v
        simp [App.transcribeParseStep, hx, ← h]
      · simp [App.transcribeParseStep, hx, ← h]
    | error e =>
      rw [hx] at h
      simp only [exceptToOption] at h
      constructor
      · intro v
        simp [App.transcribeParseStep, hx, ← h]
      · simp [App.transcribeParseStep, hx, ← h]

end Gateway
